import Mathlib

/-!
Formal model of the clarification-driven plan execution backend
(initial.py, working_backend.py, server.py).  Pure data and control
logic is embedded as executable Lean definitions; the Portia executor,
console input and HTTP transport are modelled as explicit parameters:
an Executor record of callbacks, lists of console answers, and plain
function arguments.
-/

/-- Terminal and non-terminal states of a Portia PlanRun (portia.PlanRunState). -/
inductive PlanRunState
  | NOT_STARTED
  | IN_PROGRESS
  | NEED_CLARIFICATION
  | READY_TO_RESUME
  | COMPLETE
  | FAILED
deriving DecidableEq, Repr

/-- The five clarification classes dispatched on by isinstance in
handle_clarifications, plus a constructor for any unrecognized kind
(the final else branch).  Each constructor carries the fields its handler
reads. -/
inductive Clarification
  | action (user_guidance : String) (action_url : Option String)
  | input (user_guidance : String) (argument_name : Option String)
  | multipleChoice (user_guidance : String) (options : List String)
  | valueConfirmation (user_guidance : String) (value_to_confirm : Option String)
  | custom (user_guidance : String) (custom_data : Option String)
  | unknown (user_guidance : String)
deriving DecidableEq, BEq, Repr

/-- A value passed to resolve_clarification: the loop passes user text for
Input, MultipleChoice, Custom and unrecognized kinds, and Python booleans
for ValueConfirmation. -/
inductive ResolutionValue
  | str (s : String)
  | bool (b : Bool)
deriving DecidableEq, BEq, Repr

/-- Observable interactions the resolution loop performs against the executor. -/
inductive Event
  | resolved (c : Clarification) (v : ResolutionValue)
  | waited (c : Clarification)
  | resumed
deriving DecidableEq, BEq, Repr

/-- The clarification each event processed, if any. -/
def Event.clarif : Event → Option Clarification
  | Event.resolved c _ => some c
  | Event.waited c => some c
  | Event.resumed => none

/-- The slice of a Portia PlanRun that the loop reads: its state and the
list returned by get_outstanding_clarifications. -/
structure PlanRun where
  state : PlanRunState
  outstanding : List Clarification
deriving DecidableEq, Repr

/-- The Portia executor surface used by handle_clarifications:
resolve_clarification, resume and wait_for_ready. -/
structure Executor where
  resolve_clarification : Clarification → ResolutionValue → PlanRun → PlanRun
  resume : PlanRun → PlanRun
  wait_for_ready : PlanRun → PlanRun

/-- Characters recognized by Python str.strip() and int() whitespace
stripping (ASCII subset). -/
def pyIsSpace (c : Char) : Bool :=
  c = ' ' || c = '\t' || c = '\n' || c = '\r' || c = '\x0b' || c = '\x0c'

/-- Drop leading and trailing whitespace, as Python str.strip(). -/
def pyStripChars (cs : List Char) : List Char :=
  ((cs.dropWhile pyIsSpace).reverse.dropWhile pyIsSpace).reverse

/-- Models response.lower().strip() on a console answer. -/
def pyLowerStrip (s : String) : String :=
  String.mk (pyStripChars (s.data.map Char.toLower))

/-- Numeric value of a string of decimal digit characters. -/
def digitsToNat (ds : List Char) : Nat :=
  ds.foldl (fun a c => a * 10 + (c.toNat - '0'.toNat)) 0

/-- Models CPython int(s) on a console answer: strip whitespace, optional
sign, then a non-empty run of decimal digits; none models the ValueError
branch.  Digit-group underscores are outside the model. -/
def pyInt (s : String) : Option Int :=
  match pyStripChars s.data with
  | '-' :: ds =>
    if ds.isEmpty then none
    else if ds.all Char.isDigit then some (-(digitsToNat ds : Int)) else none
  | '+' :: ds =>
    if ds.isEmpty then none
    else if ds.all Char.isDigit then some ((digitsToNat ds : Int)) else none
  | ds =>
    if ds.isEmpty then none
    else if ds.all Char.isDigit then some ((digitsToNat ds : Int)) else none

/-- Whether a console answer is accepted by the MultipleChoice re-prompt
loop for the given options: it parses as an int in [1, len(options)]. -/
def validChoice (options : List String) (s : String) : Bool :=
  match pyInt s with
  | some i => decide (1 ≤ i ∧ i ≤ (options.length : Int))
  | none => false

/-- The inner re-prompt while-loop for a MultipleChoice clarification with a
non-empty options list: keep reading console answers until one parses as an
integer in [1, len(options)]; return the selected option value (1-based
indexing) together with the unread answers.  none models running out of
console answers with no valid selection (the Python loop would still be
prompting). -/
def multipleChoiceLoop (options : List String) : List String → Option (String × List String)
  | [] => none
  | a :: rest =>
    match pyInt a with
    | none => multipleChoiceLoop options rest
    | some choice =>
      if h : 1 ≤ choice ∧ choice ≤ (options.length : Int) then
        some (options.get ⟨(choice - 1).toNat, by omega⟩, rest)
      else multipleChoiceLoop options rest

/-- One iteration of the for-loop body in handle_clarifications: dispatch on
the clarification category, consume console answers, and perform the
corresponding executor call.  Returns none when the console answer list is
exhausted where the Python input() call would block. -/
def handle_one_clarification (ex : Executor) (c : Clarification) (pr : PlanRun)
    (answers : List String) : Option (PlanRun × List String × List Event) :=
  match c with
  | Clarification.action _ _ =>
    match answers with
    | [] => none
    | _ :: rest => some (ex.wait_for_ready pr, rest, [Event.waited c])
  | Clarification.input _ _ =>
    match answers with
    | [] => none
    | a :: rest =>
      some (ex.resolve_clarification c (ResolutionValue.str a) pr, rest,
        [Event.resolved c (ResolutionValue.str a)])
  | Clarification.multipleChoice _ options =>
    if options.isEmpty then
      match answers with
      | [] => none
      | a :: rest =>
        some (ex.resolve_clarification c (ResolutionValue.str a) pr, rest,
          [Event.resolved c (ResolutionValue.str a)])
    else
      match multipleChoiceLoop options answers with
      | none => none
      | some (sel, rest) =>
        some (ex.resolve_clarification c (ResolutionValue.str sel) pr, rest,
          [Event.resolved c (ResolutionValue.str sel)])
  | Clarification.valueConfirmation _ _ =>
    match answers with
    | [] => none
    | a :: rest =>
      if pyLowerStrip a = "y" ∨ pyLowerStrip a = "yes" then
        some (ex.resolve_clarification c (ResolutionValue.bool true) pr, rest,
          [Event.resolved c (ResolutionValue.bool true)])
      else
        some (ex.resolve_clarification c (ResolutionValue.bool false) pr, rest,
          [Event.resolved c (ResolutionValue.bool false)])
  | Clarification.custom _ _ =>
    match answers with
    | [] => none
    | a :: rest =>
      some (ex.resolve_clarification c (ResolutionValue.str a) pr, rest,
        [Event.resolved c (ResolutionValue.str a)])
  | Clarification.unknown _ =>
    match answers with
    | [] => none
    | a :: rest =>
      some (ex.resolve_clarification c (ResolutionValue.str a) pr, rest,
        [Event.resolved c (ResolutionValue.str a)])

/-- The for-loop of handle_clarifications over one outstanding snapshot,
threading the reassigned plan_run through every iteration. -/
def handle_snapshot (ex : Executor) : List Clarification → PlanRun → List String →
    Option (PlanRun × List String × List Event)
  | [], pr, answers => some (pr, answers, [])
  | c :: cs, pr, answers =>
    match handle_one_clarification ex c pr answers with
    | none => none
    | some (pr', answers', evs) =>
      match handle_snapshot ex cs pr' answers' with
      | none => none
      | some (pr2, answers2, evs2) => some (pr2, answers2, evs ++ evs2)

/-- The while-loop of handle_clarifications (identical in initial.py,
working_backend.py and server.py): while the run needs clarification, fetch
the outstanding snapshot, handle every entry of it, then resume once if the
state is still NEED_CLARIFICATION, and repeat from the fetch.  fuel bounds
the number of while-iterations; none means the Python loop would still be
running or blocked on console input. -/
def handle_clarifications (ex : Executor) : Nat → PlanRun → List String →
    Option (PlanRun × List String × List Event)
  | 0, pr, answers =>
    if pr.state = PlanRunState.NEED_CLARIFICATION then none else some (pr, answers, [])
  | fuel + 1, pr, answers =>
    if pr.state = PlanRunState.NEED_CLARIFICATION then
      match handle_snapshot ex pr.outstanding pr answers with
      | none => none
      | some (pr', answers', evs) =>
        if pr'.state = PlanRunState.NEED_CLARIFICATION then
          match handle_clarifications ex fuel (ex.resume pr') answers' with
          | none => none
          | some (prF, answersF, evsF) =>
            some (prF, answersF, evs ++ Event.resumed :: evsF)
        else
          some (pr', answers', evs)
    else some (pr, answers, [])

/-- Outcome of a ClarificationHandler callback: which of on_resolution and
on_error was invoked, with what payload. -/
inductive HandlerOutcome
  | resolution (v : ResolutionValue)
  | errored (msg : String)
deriving DecidableEq, Repr

/-- FeatureResearchClarificationHandler.handle_action_clarification: print
the guidance, block on one console acknowledgement, then call
on_resolution(clarification, "completed"). -/
def handle_action_clarification : List String → Option HandlerOutcome
  | [] => none
  | _ :: _ => some (HandlerOutcome.resolution (ResolutionValue.str "completed"))

/-- FeatureResearchClarificationHandler.handle_value_confirmation_clarification:
y or yes (lowercased and stripped) calls on_resolution with True; anything
else calls on_error(clarification, "User rejected the value"). -/
def handle_value_confirmation_clarification : List String → Option HandlerOutcome
  | [] => none
  | a :: _ =>
    if pyLowerStrip a = "y" ∨ pyLowerStrip a = "yes" then
      some (HandlerOutcome.resolution (ResolutionValue.bool true))
    else some (HandlerOutcome.errored "User rejected the value")

/-- The proviso of the termination property: starting from this run with
these console answers, the executor leaves NEED_CLARIFICATION within n
resumes and every pass finds enough console answers.  This is exactly
"the Executor reaches a non-NEED_CLARIFICATION state after finitely many
resumes with an always-eventually-valid answer sequence". -/
inductive ReachesTerminal (ex : Executor) : PlanRun → List String → Nat → Prop
  | done {pr : PlanRun} {answers : List String} {n : Nat} :
      pr.state ≠ PlanRunState.NEED_CLARIFICATION → ReachesTerminal ex pr answers n
  | step {pr pr' : PlanRun} {answers answers' : List String} {evs : List Event} {n : Nat} :
      pr.state = PlanRunState.NEED_CLARIFICATION →
      handle_snapshot ex pr.outstanding pr answers = some (pr', answers', evs) →
      ReachesTerminal ex
        (if pr'.state = PlanRunState.NEED_CLARIFICATION then ex.resume pr' else pr')
        answers' n →
      ReachesTerminal ex pr answers (n + 1)

/-- Executor used to exercise the theorems on concrete runs: resolving
removes the clarification from the outstanding set, resuming completes the
run once nothing is outstanding, and wait_for_ready clears the waiting
action. -/
def demoExec : Executor where
  resolve_clarification := fun c _ pr => { pr with outstanding := pr.outstanding.erase c }
  resume := fun pr =>
    if pr.outstanding.isEmpty then { pr with state := PlanRunState.COMPLETE } else pr
  wait_for_ready := fun pr =>
    { pr with outstanding := pr.outstanding.drop 1 }

/-- A paused run with a single outstanding Input clarification. -/
def demoRun : PlanRun where
  state := PlanRunState.NEED_CLARIFICATION
  outstanding := [Clarification.input "Which region?" none]

/-- JSON values as produced by json.loads.  Numbers cover the integer case;
float literals are outside the model and make the parser fail. -/
inductive Json
  | null
  | bool (b : Bool)
  | num (n : Int)
  | str (s : String)
  | arr (xs : List Json)
  | obj (fields : List (String × Json))

/-- The double-quote character. -/
def quoteChar : Char := '\x22'

/-- The backslash character. -/
def backslashChar : Char := '\x5c'

/-- The opening-brace character. -/
def lbraceChar : Char := '\x7b'

/-- The closing-brace character. -/
def rbraceChar : Char := '\x7d'

/-- JSON whitespace accepted between tokens by json.loads. -/
def jsonIsWs (c : Char) : Bool :=
  c = ' ' || c = '\t' || c = '\n' || c = '\r'

/-- Skip JSON whitespace. -/
def jsonSkipWs (cs : List Char) : List Char := cs.dropWhile jsonIsWs

/-- Decode a single-character JSON escape; the \uXXXX form is outside the
model. -/
def jsonEscapeChar (c : Char) : Option Char :=
  if c = quoteChar then some quoteChar
  else if c = backslashChar then some backslashChar
  else if c = '/' then some '/'
  else if c = 'n' then some '\n'
  else if c = 't' then some '\t'
  else if c = 'r' then some '\r'
  else if c = 'b' then some '\x08'
  else if c = 'f' then some '\x0c'
  else none

/-- Read the body of a JSON string literal after the opening quote; returns
the decoded characters and the input after the closing quote. -/
def jsonStringBody : List Char → Option (List Char × List Char)
  | [] => none
  | c :: rest =>
    if c = quoteChar then some ([], rest)
    else if c = backslashChar then
      match rest with
      | [] => none
      | e :: rest2 =>
        match jsonEscapeChar e with
        | none => none
        | some ec =>
          match jsonStringBody rest2 with
          | none => none
          | some (s, r) => some (ec :: s, r)
    else
      match jsonStringBody rest with
      | none => none
      | some (s, r) => some (c :: s, r)

/-- Parser stack frame: inside an array with the elements accumulated so far
(reversed), or inside an object awaiting the value for the given key. -/
inductive JFrame
  | inArr (acc : List Json)
  | inObj (acc : List (String × Json)) (key : String)

/-- Parser mode: about to read a value, or just finished one. -/
inductive JMode
  | value
  | reduce (v : Json)

/-- Iterative JSON parser: a value/reduce machine over an explicit frame
stack, fuelled so that it is structurally recursive.  Returns the parsed
value and the unconsumed input. -/
def jsonRun : Nat → JMode → List JFrame → List Char → Option (Json × List Char)
  | 0, _, _, _ => none
  | fuel + 1, JMode.value, stack, cs =>
    match jsonSkipWs cs with
    | [] => none
    | c :: rest =>
      if c = quoteChar then
        match jsonStringBody rest with
        | none => none
        | some (s, r) => jsonRun fuel (JMode.reduce (Json.str (String.mk s))) stack r
      else if c = 't' then
        match rest with
        | 'r' :: 'u' :: 'e' :: r => jsonRun fuel (JMode.reduce (Json.bool true)) stack r
        | _ => none
      else if c = 'f' then
        match rest with
        | 'a' :: 'l' :: 's' :: 'e' :: r => jsonRun fuel (JMode.reduce (Json.bool false)) stack r
        | _ => none
      else if c = 'n' then
        match rest with
        | 'u' :: 'l' :: 'l' :: r => jsonRun fuel (JMode.reduce Json.null) stack r
        | _ => none
      else if c = '[' then
        match jsonSkipWs rest with
        | ']' :: r => jsonRun fuel (JMode.reduce (Json.arr [])) stack r
        | _ => jsonRun fuel JMode.value (JFrame.inArr [] :: stack) rest
      else if c = lbraceChar then
        match jsonSkipWs rest with
        | [] => none
        | c2 :: r2 =>
          if c2 = rbraceChar then jsonRun fuel (JMode.reduce (Json.obj [])) stack r2
          else if c2 = quoteChar then
            match jsonStringBody r2 with
            | none => none
            | some (ks, r3) =>
              match jsonSkipWs r3 with
              | ':' :: r4 => jsonRun fuel JMode.value (JFrame.inObj [] (String.mk ks) :: stack) r4
              | _ => none
          else none
      else if c = '-' || c.isDigit then
        let body := if c = '-' then rest else c :: rest
        let ds := body.takeWhile Char.isDigit
        let r := body.dropWhile Char.isDigit
        if ds.isEmpty then none
        else
          match r with
          | d :: _ =>
            if d = '.' || d = 'e' || d = 'E' then none
            else
              jsonRun fuel
                (JMode.reduce (Json.num (if c = '-' then -(digitsToNat ds : Int)
                  else (digitsToNat ds : Int)))) stack r
          | [] =>
            jsonRun fuel
              (JMode.reduce (Json.num (if c = '-' then -(digitsToNat ds : Int)
                else (digitsToNat ds : Int)))) stack r
      else none
  | fuel + 1, JMode.reduce v, stack, cs =>
    match stack with
    | [] => some (v, cs)
    | JFrame.inArr acc :: stack' =>
      match jsonSkipWs cs with
      | [] => none
      | c :: r =>
        if c = ',' then jsonRun fuel JMode.value (JFrame.inArr (v :: acc) :: stack') r
        else if c = ']' then
          jsonRun fuel (JMode.reduce (Json.arr ((v :: acc).reverse))) stack' r
        else none
    | JFrame.inObj acc key :: stack' =>
      match jsonSkipWs cs with
      | [] => none
      | c :: r =>
        if c = ',' then
          match jsonSkipWs r with
          | [] => none
          | c2 :: r2 =>
            if c2 = quoteChar then
              match jsonStringBody r2 with
              | none => none
              | some (ks, r3) =>
                match jsonSkipWs r3 with
                | ':' :: r4 =>
                  jsonRun fuel JMode.value
                    (JFrame.inObj ((key, v) :: acc) (String.mk ks) :: stack') r4
                | _ => none
            else none
        else if c = rbraceChar then
          jsonRun fuel (JMode.reduce (Json.obj (((key, v) :: acc).reverse))) stack' r
        else none

/-- json.loads: parse a complete JSON document; none models the
json.JSONDecodeError branches. -/
def jsonParse (s : String) : Option Json :=
  match jsonRun (2 * s.length + 4) JMode.value [] s.data with
  | none => none
  | some (v, rest) => if (jsonSkipWs rest).isEmpty then some v else none

/-- Python dict lookup on the parsed fields of a JSON object (json.loads
keeps the last binding of a duplicated key). -/
def pyDictGet (fields : List (String × Json)) (k : String) : Option Json :=
  (fields.reverse.find? (fun p => p.1 == k)).map (fun p => p.2)

/-- Placeholder for Python str(...) on container values; it is only reached
on display-only fallback paths that no verified property exercises. -/
def pyStr (v : Json) : String :=
  match v with
  | Json.null => "None"
  | Json.bool true => "True"
  | Json.bool false => "False"
  | Json.num n => toString n
  | Json.str s => s
  | Json.arr _ => "<list>"
  | Json.obj _ => "<dict>"

/-- Author-name extraction in process_comments_with_user, given the fields
of one comment dict: a dict-valued author yields author.get("name",
"Unknown"); a non-dict author falls back to str(author); a missing author
leaves the default "Unknown". -/
def extract_author_name (comment : List (String × Json)) : String :=
  match pyDictGet comment "author" with
  | some (Json.obj fs) =>
    match pyDictGet fs "name" with
    | some (Json.str s) => s
    | some v => pyStr v
    | none => "Unknown"
  | some v => pyStr v
  | none => "Unknown"

/-- Comment-body extraction in process_comments_with_user:
comment.get("body", "No content"). -/
def extract_comment_body (comment : List (String × Json)) : String :=
  match pyDictGet comment "body" with
  | some (Json.str s) => s
  | some v => pyStr v
  | none => "No content"

/-- The string branch of monitor_linear_comments: the whole tool response is
a JSON-encoded string; parse it, find the content list, read content[0]'s
"text" key, parse that text as JSON, and keep it when it is a list.  Every
failure path (either json.loads raising, a missing or ill-typed field, or a
non-list payload) leaves comments_data as the empty list. -/
def monitor_comments_string_branch (response : String) : List Json :=
  match jsonParse response with
  | none => []
  | some (Json.obj fields) =>
    match pyDictGet fields "content" with
    | some (Json.arr (c0 :: _)) =>
      match c0 with
      | Json.obj f0 =>
        match pyDictGet f0 "text" with
        | some (Json.str t) =>
          match jsonParse t with
          | some (Json.arr raw) => raw
          | some _ => []
          | none => []
        | some _ => []
        | none => []
      | _ => []
    | some _ => []
    | none => []
  | some _ => []

/-- Models the attribute lookup comments_output.content[0].text guarded by
hasattr in the structured branch of monitor_linear_comments.  The declared
schema LinearCommentsListOutput types content as List[dict], and a Python
dict stores "text" as a key, not as an attribute, so
hasattr(content[0], "text") is False for every entry and the lookup never
yields a value. -/
def textAttr (_ : Json) : Option String := none

/-- The structured-object branch of monitor_linear_comments: when the tool
response arrives as the declared LinearCommentsListOutput, the code reads
content[0] and, if hasattr(content[0], "text") holds, parses that text as a
JSON list of comments; otherwise comments_data stays empty. -/
def monitor_comments_structured_branch (content : List Json) : List Json :=
  match content with
  | [] => []
  | c0 :: _ =>
    match textAttr c0 with
    | some t =>
      match jsonParse t with
      | some (Json.arr raw) => raw
      | some _ => []
      | none => []
    | none => []

/-- A research result from web search (pydantic ResearchResult). -/
structure ResearchResult where
  title : String
  url : String
  summary : String
  relevance_score : Int
  key_insights : List String
deriving DecidableEq, Repr

/-- Comprehensive analysis of a feature (pydantic FeatureAnalysis). -/
structure FeatureAnalysis where
  feature_name : String
  description : String
  research_sources : List ResearchResult
  market_analysis : String
  technical_considerations : List String
  implementation_approaches : List String
  risks_and_challenges : List String
  success_metrics : List String
  recommendations : String
deriving DecidableEq, Repr

/-- The result dict stored into a completed research session by
run_research_workflow. -/
structure SessionResult where
  feature_name : String
  analysis : FeatureAnalysis
  notion_page_id : Option String
  linear_issue_id : Option String
deriving DecidableEq, Repr

/-- One entry of the research_sessions map: status, progress, result and
error, exactly the keys initialized by start_research.  progress only ever
takes the integral values 0, 10, 30, 60, 80, 100, so it is carried as Nat. -/
structure Session where
  status : String
  progress : Nat
  result : Option SessionResult
  error : Option String
deriving DecidableEq, Repr

/-- The ResearchSessionResponse pydantic response model. -/
structure ResearchSessionResponse where
  session_id : String
  status : String
  progress : Nat
  result : Option SessionResult
  error : Option String
deriving DecidableEq, Repr

/-- Environment of one run_research_workflow invocation: the terminal plan
states the external executor reaches for each driver, the values its
completed plans produce, and whether NOTION_API_KEY is configured.  The
task-creation outcome is caught and only logged by the workflow, so it does
not appear in the session record. -/
structure WorkflowEnv where
  researchPlanState : PlanRunState
  researchValue : FeatureAnalysis
  notionConfigured : Bool
  notionPlanState : PlanRunState
  notionPageId : String
  linearPlanState : PlanRunState
  linearIssueId : String
  tasksPlanState : PlanRunState

/-- research_feature: on a COMPLETE plan run return final_output.value,
otherwise raise Exception("Feature research failed"). -/
def research_feature (env : WorkflowEnv) : Except String FeatureAnalysis :=
  if env.researchPlanState = PlanRunState.COMPLETE then Except.ok env.researchValue
  else Except.error "Feature research failed"

/-- create_prd_in_notion: on a COMPLETE plan run return the created page id,
otherwise raise Exception("PRD creation failed"). -/
def create_prd_in_notion (env : WorkflowEnv) : Except String String :=
  if env.notionPlanState = PlanRunState.COMPLETE then Except.ok env.notionPageId
  else Except.error "PRD creation failed"

/-- create_linear_issue: on a COMPLETE plan run return the created issue id,
otherwise raise Exception("Linear issue creation failed"). -/
def create_linear_issue (env : WorkflowEnv) : Except String String :=
  if env.linearPlanState = PlanRunState.COMPLETE then Except.ok env.linearIssueId
  else Except.error "Linear issue creation failed"

/-- run_research_workflow from server.py: thread the session record through
the status updates.  A raise from research_feature is caught by the outer
except, which overwrites status with "failed" and stores str(e); the Notion,
Linear-issue and Linear-task steps are each wrapped in their own try/except,
so their failures only null the corresponding id (or are merely logged) and
the session still completes. -/
def run_research_workflow (env : WorkflowEnv) : Session :=
  let s0 : Session := { status := "setting_up", progress := 10, result := none, error := none }
  let s1 : Session := { s0 with status := "researching", progress := 30 }
  match research_feature env with
  | Except.error e => { s1 with status := "failed", error := some e }
  | Except.ok analysis =>
    let s2 : Session := { s1 with status := "creating_prd", progress := 60 }
    let notion_page_id : Option String :=
      if env.notionConfigured then
        match create_prd_in_notion env with
        | Except.ok pid => some pid
        | Except.error _ => none
      else none
    let s3 : Session := { s2 with status := "creating_linear_issue", progress := 80 }
    let linear_issue_id : Option String :=
      match create_linear_issue env with
      | Except.ok iid => some iid
      | Except.error _ => none
    { s3 with
      status := "completed"
      progress := 100
      result := some
        { feature_name := analysis.feature_name
          analysis := analysis
          notion_page_id := notion_page_id
          linear_issue_id := linear_issue_id } }

/-- Write research_sessions[session_id] = session (later bindings shadow
earlier ones for lookup, matching dict assignment). -/
def sessionsSet (m : List (String × Session)) (k : String) (v : Session) :
    List (String × Session) :=
  (k, v) :: m

/-- research_sessions.get(session_id) / the `session_id in research_sessions`
membership test. -/
def sessionsGet (m : List (String × Session)) (k : String) : Option Session :=
  match m with
  | [] => none
  | (k', v) :: rest => if k' = k then some v else sessionsGet rest k

/-- POST /research (start_research): create the session entry with status
"initializing" and progress 0 in the session map, schedule the background
task, and answer with the constant status "started" and progress 0.  The
generated session id is passed in, since it only depends on the clock and
the feature name. -/
def start_research (sessions : List (String × Session)) (session_id : String) :
    List (String × Session) × ResearchSessionResponse :=
  let entry : Session := { status := "initializing", progress := 0, result := none, error := none }
  (sessionsSet sessions session_id entry,
    { session_id := session_id, status := "started", progress := 0, result := none, error := none })

/-- GET /research/session_id (get_research_status): 404 when the id is
unknown, otherwise echo the stored session fields. -/
def get_research_status (sessions : List (String × Session)) (session_id : String) :
    Except Nat ResearchSessionResponse :=
  match sessionsGet sessions session_id with
  | none => Except.error 404
  | some s =>
    Except.ok
      { session_id := session_id, status := s.status, progress := s.progress,
        result := s.result, error := s.error }

/-- The module-level credential check shared verbatim by initial.py,
working_backend.py and server.py: read PORTIA_API_KEY from the environment
and, when it is missing or empty (Python falsy), print the explanatory
message and call exit(1) before any further work; otherwise continue with
the key. -/
def startup_check (portia_api_key : Option String) : Except (String × Nat) String :=
  match portia_api_key with
  | none => Except.error ("❌ Error: PORTIA_API_KEY environment variable is required", 1)
  | some k =>
    if k = "" then Except.error ("❌ Error: PORTIA_API_KEY environment variable is required", 1)
    else Except.ok k

/-- The result of running the loop on demoRun with the single console
answer "hello": the input clarification is resolved, the run is resumed
once, and it completes. -/
def c2res : PlanRun × List String × List Event :=
  ({ state := PlanRunState.COMPLETE, outstanding := [] }, [],
    [Event.resolved (Clarification.input "Which region?" none) (ResolutionValue.str "hello"),
      Event.resumed])

/-- The double-encoded comment payload of the comment double-decode
property: a JSON array holding one comment with body "ok" and author
name "Bo". -/
def c5CommentsJson : String :=
  "[\x7b\"id\":\"c1\",\"body\":\"ok\",\"author\":\x7b\"name\":\"Bo\"\x7d\x7d]"

/-- A complete list-comments tool response serialized as one JSON string,
whose content[0].text field equals c5CommentsJson. -/
def c5Response : String :=
  "\x7b\"content\":[\x7b\"text\":\"[\x7b\\\"id\\\":\\\"c1\\\",\\\"body\\\":\\\"ok\\\",\\\"author\\\":\x7b\\\"name\\\":\\\"Bo\\\"\x7d\x7d]\"\x7d],\"meta\":\x7b\x7d,\"isError\":false\x7d"

/-- A concrete workflow environment in which research and the Linear issue
plan complete while the Notion plan fails. -/
def envDemo : WorkflowEnv where
  researchPlanState := PlanRunState.COMPLETE
  researchValue :=
    { feature_name := "Realtime sync"
      description := "Background sync for drafts"
      research_sources := []
      market_analysis := ""
      technical_considerations := []
      implementation_approaches := []
      risks_and_challenges := []
      success_metrics := []
      recommendations := "" }
  notionConfigured := true
  notionPlanState := PlanRunState.FAILED
  notionPageId := "page-1"
  linearPlanState := PlanRunState.COMPLETE
  linearIssueId := "PRA-8"
  tasksPlanState := PlanRunState.FAILED

/-- Whenever the while-loop of handle_clarifications returns, the final
plan run is not in NEED_CLARIFICATION: the loop condition cannot be true at
exit. -/
theorem handle_clarifications_final_state (ex : Executor) :
    ∀ (fuel : Nat) (pr : PlanRun) (answers : List String)
      (res : PlanRun × List String × List Event),
      handle_clarifications ex fuel pr answers = some res →
      res.1.state ≠ PlanRunState.NEED_CLARIFICATION := by
  intro fuel
  induction fuel with
  | zero =>
    intro pr answers res h
    simp only [handle_clarifications] at h
    split at h
    · exact absurd h (by simp)
    · next hne =>
      obtain rfl : (pr, answers, ([] : List Event)) = res := by injection h
      exact hne
  | succ fuel ih =>
    intro pr answers res h
    simp only [handle_clarifications] at h
    split at h
    · split at h
      · exact absurd h (by simp)
      · next pr' answers' evs hsnap =>
        split at h
        · split at h
          · exact absurd h (by simp)
          · next prF answersF evsF hrec =>
            obtain rfl : (prF, answersF, evs ++ Event.resumed :: evsF) = res := by injection h
            exact ih (ex.resume pr') answers' (prF, answersF, evsF) hrec
        · next hne =>
          obtain rfl : (pr', answers', evs) = res := by injection h
          exact hne
    · next hne =>
      obtain rfl : (pr, answers, ([] : List Event)) = res := by injection h
      exact hne

/-- Handling one clarification emits exactly one resolve-or-wait event, and
it is for that clarification. -/
theorem handle_one_clarification_events (ex : Executor) (c : Clarification) (pr : PlanRun)
    (answers : List String) (pr' : PlanRun) (answers' : List String) (evs : List Event)
    (h : handle_one_clarification ex c pr answers = some (pr', answers', evs)) :
    evs.filterMap Event.clarif = [c] := by
  cases c with
  | action g u =>
    cases answers with
    | nil => simp [handle_one_clarification] at h
    | cons a rest =>
      simp only [handle_one_clarification, Option.some.injEq, Prod.mk.injEq] at h
      obtain ⟨-, -, rfl⟩ := h
      rfl
  | input g u =>
    cases answers with
    | nil => simp [handle_one_clarification] at h
    | cons a rest =>
      simp only [handle_one_clarification, Option.some.injEq, Prod.mk.injEq] at h
      obtain ⟨-, -, rfl⟩ := h
      rfl
  | multipleChoice g options =>
    simp only [handle_one_clarification] at h
    split at h
    · cases answers with
      | nil => simp at h
      | cons a rest =>
        simp only [Option.some.injEq, Prod.mk.injEq] at h
        obtain ⟨-, -, rfl⟩ := h
        rfl
    · split at h
      · exact absurd h (by simp)
      · next sel rest hloop =>
        simp only [Option.some.injEq, Prod.mk.injEq] at h
        obtain ⟨-, -, rfl⟩ := h
        rfl
  | valueConfirmation g u =>
    cases answers with
    | nil => simp [handle_one_clarification] at h
    | cons a rest =>
      simp only [handle_one_clarification] at h
      split at h <;>
        · simp only [Option.some.injEq, Prod.mk.injEq] at h
          obtain ⟨-, -, rfl⟩ := h
          rfl
  | custom g u =>
    cases answers with
    | nil => simp [handle_one_clarification] at h
    | cons a rest =>
      simp only [handle_one_clarification, Option.some.injEq, Prod.mk.injEq] at h
      obtain ⟨-, -, rfl⟩ := h
      rfl
  | unknown g =>
    cases answers with
    | nil => simp [handle_one_clarification] at h
    | cons a rest =>
      simp only [handle_one_clarification, Option.some.injEq, Prod.mk.injEq] at h
      obtain ⟨-, -, rfl⟩ := h
      rfl

/-- A completed pass over a snapshot processes exactly the snapshot's
clarifications, in order. -/
theorem handle_snapshot_events (ex : Executor) :
    ∀ (cs : List Clarification) (pr : PlanRun) (answers : List String)
      (pr' : PlanRun) (answers' : List String) (evs : List Event),
      handle_snapshot ex cs pr answers = some (pr', answers', evs) →
      evs.filterMap Event.clarif = cs := by
  intro cs
  induction cs with
  | nil =>
    intro pr answers pr' answers' evs h
    simp only [handle_snapshot, Option.some.injEq, Prod.mk.injEq] at h
    obtain ⟨-, -, rfl⟩ := h
    rfl
  | cons c cs ih =>
    intro pr answers pr' answers' evs h
    simp only [handle_snapshot] at h
    cases h1 : handle_one_clarification ex c pr answers with
    | none => rw [h1] at h; simp at h
    | some t =>
      obtain ⟨pr1, answers1, evs1⟩ := t
      rw [h1] at h
      dsimp only [] at h
      cases h2 : handle_snapshot ex cs pr1 answers1 with
      | none => rw [h2] at h; simp at h
      | some t2 =>
        obtain ⟨pr2, answers2, evs2⟩ := t2
        rw [h2] at h
        simp only [Option.some.injEq, Prod.mk.injEq] at h
        obtain ⟨-, -, rfl⟩ := h
        rw [List.filterMap_append,
          handle_one_clarification_events ex c pr answers _ _ _ h1,
          ih _ _ _ _ _ h2]
        rfl

/-- The MultipleChoice re-prompt loop skips every invalid console answer and
stops at the first valid one, returning the 1-based selected option value. -/
theorem multipleChoiceLoop_first_valid (options : List String) (bad : List String)
    (a : String) (rest : List String)
    (hbad : ∀ b ∈ bad, validChoice options b = false)
    (i : Int) (hi : pyInt a = some i) (h1 : 1 ≤ i) (h2 : i ≤ (options.length : Int)) :
    multipleChoiceLoop options (bad ++ a :: rest) =
      some (options.get ⟨(i - 1).toNat, by omega⟩, rest) := by
  induction bad with
  | nil =>
    simp only [List.nil_append, multipleChoiceLoop, hi]
    rw [dif_pos ⟨h1, h2⟩]
  | cons b bs ih =>
    have hb := hbad b (List.mem_cons_self b bs)
    have ih' := ih (fun x hx => hbad x (List.mem_cons_of_mem b hx))
    cases hpb : pyInt b with
    | none => simpa only [List.cons_append, multipleChoiceLoop, hpb] using ih'
    | some j =>
      rw [validChoice, hpb] at hb
      simp only [decide_eq_false_iff_not] at hb
      simpa only [List.cons_append, multipleChoiceLoop, hpb, dif_neg hb] using ih'

/-- The MultipleChoice re-prompt loop returns as soon as any valid answer
occurs in the console answer sequence. -/
theorem multipleChoiceLoop_total (options : List String) :
    ∀ answers : List String, (∃ a ∈ answers, validChoice options a = true) →
      (multipleChoiceLoop options answers).isSome := by
  intro answers
  induction answers with
  | nil => rintro ⟨a, ha, -⟩; cases ha
  | cons a rest ih =>
    rintro ⟨b, hb, hvalid⟩
    cases hpi : pyInt a with
    | none =>
      have heq : multipleChoiceLoop options (a :: rest) = multipleChoiceLoop options rest := by
        simp only [multipleChoiceLoop, hpi]
      rw [heq]
      rcases List.mem_cons.mp hb with rfl | hbrest
      · rw [validChoice, hpi] at hvalid; cases hvalid
      · exact ih ⟨b, hbrest, hvalid⟩
    | some choice =>
      by_cases hcond : 1 ≤ choice ∧ choice ≤ (options.length : Int)
      · simp only [multipleChoiceLoop, hpi, dif_pos hcond, Option.isSome_some]
      · have heq : multipleChoiceLoop options (a :: rest) = multipleChoiceLoop options rest := by
          simp only [multipleChoiceLoop, hpi, dif_neg hcond]
        rw [heq]
        rcases List.mem_cons.mp hb with rfl | hbrest
        · rw [validChoice, hpi] at hvalid
          simp only [decide_eq_true_eq] at hvalid
          exact absurd hvalid hcond
        · exact ih ⟨b, hbrest, hvalid⟩

/-- C1, counterexample: in the inline handle_clarifications loop, answering
"n" to a ValueConfirmation clarification resolves the clarification with
boolean False through resolve_clarification, instead of reporting an error;
the claim that the resolution machinery never resolves with boolean false is
therefore false of this code path. -/
theorem c1_loop_resolves_rejection_with_false :
    handle_one_clarification demoExec
        (Clarification.valueConfirmation "Confirm the workspace" none) demoRun ["n"] =
      some (demoExec.resolve_clarification
          (Clarification.valueConfirmation "Confirm the workspace" none)
          (ResolutionValue.bool false) demoRun,
        [],
        [Event.resolved (Clarification.valueConfirmation "Confirm the workspace" none)
          (ResolutionValue.bool false)]) := by
  rfl

/-- C1, amended: for a ValueConfirmation clarification with an answer that
is neither y nor yes after lowercasing and stripping, the
ClarificationHandler-class path reports the error "User rejected the value"
to the Executor, while the inline handle_clarifications loop instead
resolves the clarification with boolean False; an affirmative answer
resolves with boolean True on both paths. -/
theorem c1_value_confirmation_rejection_paths
    (ex : Executor) (pr : PlanRun) (g : String) (v : Option String)
    (a : String) (rest : List String)
    (hy : pyLowerStrip a ≠ "y") (hyes : pyLowerStrip a ≠ "yes") :
    handle_value_confirmation_clarification (a :: rest) =
      some (HandlerOutcome.errored "User rejected the value") ∧
    handle_one_clarification ex (Clarification.valueConfirmation g v) pr (a :: rest) =
      some (ex.resolve_clarification (Clarification.valueConfirmation g v)
          (ResolutionValue.bool false) pr, rest,
        [Event.resolved (Clarification.valueConfirmation g v) (ResolutionValue.bool false)]) := by
  have hcond : ¬(pyLowerStrip a = "y" ∨ pyLowerStrip a = "yes") := by
    rintro (h | h)
    · exact hy h
    · exact hyes h
  constructor
  · simp only [handle_value_confirmation_clarification, if_neg hcond]
  · simp only [handle_one_clarification, if_neg hcond]

/-- C1, witness: the amended statement evaluated at the rejection answer
"n". -/
theorem c1_value_confirmation_rejection_witness :
    pyLowerStrip "n" ≠ "y" ∧ pyLowerStrip "n" ≠ "yes" ∧
    (handle_value_confirmation_clarification ["n"] =
        some (HandlerOutcome.errored "User rejected the value") ∧
      handle_one_clarification demoExec
          (Clarification.valueConfirmation "Confirm the default team" none) demoRun ["n"] =
        some (demoExec.resolve_clarification
            (Clarification.valueConfirmation "Confirm the default team" none)
            (ResolutionValue.bool false) demoRun, [],
          [Event.resolved (Clarification.valueConfirmation "Confirm the default team" none)
            (ResolutionValue.bool false)])) :=
  ⟨by decide, by decide,
    c1_value_confirmation_rejection_paths demoExec demoRun "Confirm the default team" none
      "n" [] (by decide) (by decide)⟩

/-- C2: when a run enters the loop in NEED_CLARIFICATION and the loop
returns, the final state is never NEED_CLARIFICATION; moreover the first
pass handles the entire outstanding snapshot fetched at the top of the pass
(every clarification of the snapshot is processed, in order) and only then
either issues the single resume and re-enters the loop from the fetch step,
or exits with no resume because the state already left NEED_CLARIFICATION. -/
theorem c2_loop_drains_snapshot_before_resume
    (ex : Executor) (fuel : Nat) (pr : PlanRun) (answers : List String)
    (res : PlanRun × List String × List Event)
    (hneed : pr.state = PlanRunState.NEED_CLARIFICATION)
    (hrun : handle_clarifications ex (fuel + 1) pr answers = some res) :
    res.1.state ≠ PlanRunState.NEED_CLARIFICATION ∧
    ∃ pr' answers' evs,
      handle_snapshot ex pr.outstanding pr answers = some (pr', answers', evs) ∧
      evs.filterMap Event.clarif = pr.outstanding ∧
      ((pr'.state = PlanRunState.NEED_CLARIFICATION ∧
          ∃ evsF, handle_clarifications ex fuel (ex.resume pr') answers' =
              some (res.1, res.2.1, evsF) ∧
            res.2.2 = evs ++ Event.resumed :: evsF) ∨
        (pr'.state ≠ PlanRunState.NEED_CLARIFICATION ∧ res = (pr', answers', evs))) := by
  refine ⟨handle_clarifications_final_state ex (fuel + 1) pr answers res hrun, ?_⟩
  simp only [handle_clarifications] at hrun
  rw [if_pos hneed] at hrun
  cases hsnap : handle_snapshot ex pr.outstanding pr answers with
  | none => rw [hsnap] at hrun; simp at hrun
  | some t =>
    obtain ⟨pr', answers', evs⟩ := t
    rw [hsnap] at hrun
    dsimp only [] at hrun
    refine ⟨pr', answers', evs, rfl, handle_snapshot_events ex _ _ _ _ _ _ hsnap, ?_⟩
    by_cases hps : pr'.state = PlanRunState.NEED_CLARIFICATION
    · rw [if_pos hps] at hrun
      cases hrec : handle_clarifications ex fuel (ex.resume pr') answers' with
      | none => rw [hrec] at hrun; simp at hrun
      | some t2 =>
        obtain ⟨prF, answersF, evsF⟩ := t2
        rw [hrec] at hrun
        dsimp only [] at hrun
        obtain rfl : (prF, answersF, evs ++ Event.resumed :: evsF) = res := by injection hrun
        refine Or.inl ⟨hps, evsF, ?_, rfl⟩
        rfl
    · rw [if_neg hps] at hrun
      obtain rfl : (pr', answers', evs) = res := by injection hrun
      exact Or.inr ⟨hps, rfl⟩

/-- C2, witness: the loop run on demoRun with answer "hello" resolves the
full snapshot, resumes once and exits COMPLETE. -/
theorem c2_loop_drains_snapshot_witness :
    demoRun.state = PlanRunState.NEED_CLARIFICATION ∧
    handle_clarifications demoExec 2 demoRun ["hello"] = some c2res ∧
    (c2res.1.state ≠ PlanRunState.NEED_CLARIFICATION ∧
      ∃ pr' answers' evs,
        handle_snapshot demoExec demoRun.outstanding demoRun ["hello"] =
          some (pr', answers', evs) ∧
        evs.filterMap Event.clarif = demoRun.outstanding ∧
        ((pr'.state = PlanRunState.NEED_CLARIFICATION ∧
            ∃ evsF, handle_clarifications demoExec 1 (demoExec.resume pr') answers' =
                some (c2res.1, c2res.2.1, evsF) ∧
              c2res.2.2 = evs ++ Event.resumed :: evsF) ∨
          (pr'.state ≠ PlanRunState.NEED_CLARIFICATION ∧ c2res = (pr', answers', evs)))) :=
  ⟨rfl, rfl,
    c2_loop_drains_snapshot_before_resume demoExec 1 demoRun ["hello"] c2res rfl rfl⟩

/-- C3: for a MultipleChoice clarification with non-empty options, the loop
rejects every out-of-range or non-numeric console answer, accepts the first
answer parsing to an integer i with 1 ≤ i ≤ len(options), and resolves the
clarification with the selected option value (1-based), not with the
index. -/
theorem c3_multiple_choice_first_valid_selection
    (ex : Executor) (pr : PlanRun) (g : String)
    (options bad : List String) (a : String) (rest : List String)
    (hopts : options ≠ [])
    (hbad : ∀ b ∈ bad, validChoice options b = false)
    (i : Int) (hi : pyInt a = some i) (h1 : 1 ≤ i) (h2 : i ≤ (options.length : Int)) :
    handle_one_clarification ex (Clarification.multipleChoice g options) pr
        (bad ++ a :: rest) =
      some (ex.resolve_clarification (Clarification.multipleChoice g options)
          (ResolutionValue.str (options.get ⟨(i - 1).toNat, by omega⟩)) pr,
        rest,
        [Event.resolved (Clarification.multipleChoice g options)
          (ResolutionValue.str (options.get ⟨(i - 1).toNat, by omega⟩))]) := by
  have hempty : options.isEmpty = false := by
    cases options with
    | nil => exact absurd rfl hopts
    | cons o os => rfl
  simp only [handle_one_clarification, hempty, Bool.false_eq_true, if_false]
  rw [multipleChoiceLoop_first_valid options bad a rest hbad i hi h1 h2]

/-- C3, witness: with options A, B, C and console answers 5, x, 2 the first
two answers are rejected and the clarification is resolved with B. -/
theorem c3_multiple_choice_witness :
    (["A", "B", "C"] : List String) ≠ [] ∧
    validChoice ["A", "B", "C"] "5" = false ∧
    validChoice ["A", "B", "C"] "x" = false ∧
    pyInt "2" = some 2 ∧ (1 : Int) ≤ 2 ∧ (2 : Int) ≤ (3 : Int) ∧
    handle_one_clarification demoExec
        (Clarification.multipleChoice "Pick one" ["A", "B", "C"]) demoRun
        ["5", "x", "2"] =
      some (demoExec.resolve_clarification
          (Clarification.multipleChoice "Pick one" ["A", "B", "C"])
          (ResolutionValue.str "B") demoRun,
        [],
        [Event.resolved (Clarification.multipleChoice "Pick one" ["A", "B", "C"])
          (ResolutionValue.str "B")]) :=
  ⟨by decide, by decide, by decide, by decide, by decide, by decide,
    c3_multiple_choice_first_valid_selection demoExec demoRun "Pick one"
      ["A", "B", "C"] ["5", "x"] "2" []
      (by decide)
      (by decide)
      2 (by decide) (by decide) (by decide)⟩

/-- C4: the MultipleChoice re-prompt loop exits as soon as a valid selection
arrives in the console answer sequence, and the whole resolution loop
terminates with a non-NEED_CLARIFICATION run whenever the Executor reaches
a non-NEED_CLARIFICATION state after finitely many resumes with sufficient
console answers for each pass (the ReachesTerminal proviso). -/
theorem c4_resolution_loop_terminates
    (ex : Executor) (pr : PlanRun) (answers : List String) (n : Nat)
    (h : ReachesTerminal ex pr answers n) :
    (∀ (options prompts : List String),
        (∃ a ∈ prompts, validChoice options a = true) →
        (multipleChoiceLoop options prompts).isSome) ∧
    ∃ res, handle_clarifications ex n pr answers = some res ∧
      res.1.state ≠ PlanRunState.NEED_CLARIFICATION := by
  refine ⟨fun options prompts hex => multipleChoiceLoop_total options prompts hex, ?_⟩
  induction h with
  | done hne =>
    rename_i pr1 answers1 n1
    refine ⟨(pr1, answers1, []), ?_, hne⟩
    cases n1 with
    | zero => simp [handle_clarifications, hne]
    | succ m => simp [handle_clarifications, hne]
  | step hneed hsnap hrt ih =>
    rename_i pr1 pr' answers1 answers' evs n1
    obtain ⟨res, hres, hne⟩ := ih
    by_cases hps : pr'.state = PlanRunState.NEED_CLARIFICATION
    · rw [if_pos hps] at hres
      obtain ⟨resA, resB, resC⟩ := res
      refine ⟨(resA, resB, evs ++ Event.resumed :: resC), ?_, hne⟩
      simp only [handle_clarifications, if_pos hneed, hsnap]
      rw [if_pos hps, hres]
    · rw [if_neg hps] at hres
      refine ⟨(pr', answers', evs), ?_, hps⟩
      simp only [handle_clarifications, if_pos hneed, hsnap]
      rw [if_neg hps]

/-- C4, witness: the proviso holds for demoRun under demoExec with answer
"hello" and two resumes of fuel, and the loop indeed terminates. -/
theorem c4_resolution_loop_terminates_witness :
    ReachesTerminal demoExec demoRun ["hello"] 2 ∧
    ((∀ (options prompts : List String),
        (∃ a ∈ prompts, validChoice options a = true) →
        (multipleChoiceLoop options prompts).isSome) ∧
      ∃ res, handle_clarifications demoExec 2 demoRun ["hello"] = some res ∧
        res.1.state ≠ PlanRunState.NEED_CLARIFICATION) := by
  have hrt : ReachesTerminal demoExec demoRun ["hello"] 2 :=
    ReachesTerminal.step rfl rfl (ReachesTerminal.done (by decide))
  exact ⟨hrt, c4_resolution_loop_terminates demoExec demoRun ["hello"] 2 hrt⟩

/-- C5: evaluation of the comment double-decode at the claimed input.  When
the list-comments response arrives as the declared structured
LinearCommentsListOutput whose content[0] dict carries the text field with
the double-encoded comment array, the driver produces the empty comment
list, because hasattr(content[0], "text") is False on a dict: the claimed
single comment with body "ok" and author "Bo" is not produced on this path.
The unwrap does work when the same response arrives as one JSON-encoded
string, giving exactly one comment whose extracted body is "ok" and whose
extracted author name is "Bo", and a JSON decode failure at either layer on
that path yields the empty comment list rather than an exception. -/
theorem c5_comment_double_decode_structured_dead :
    monitor_comments_structured_branch [Json.obj [("text", Json.str c5CommentsJson)]] = [] ∧
    monitor_comments_string_branch c5Response =
      [Json.obj [("id", Json.str "c1"), ("body", Json.str "ok"),
        ("author", Json.obj [("name", Json.str "Bo")])]] ∧
    extract_comment_body [("id", Json.str "c1"), ("body", Json.str "ok"),
      ("author", Json.obj [("name", Json.str "Bo")])] = "ok" ∧
    extract_author_name [("id", Json.str "c1"), ("body", Json.str "ok"),
      ("author", Json.obj [("name", Json.str "Bo")])] = "Bo" ∧
    monitor_comments_string_branch "not json" = [] ∧
    monitor_comments_string_branch
      "\x7b\"content\":[\x7b\"text\":\"not json\"\x7d]\x7d" = [] :=
  ⟨rfl, rfl, rfl, rfl, rfl, rfl⟩

/-- C6: the research session record ends in status "failed" with the
captured error text exactly when the core research step raises; and when
research succeeds, the Notion plan terminates FAILED with Notion configured,
and the Linear plan completes, the session still reaches status "completed"
with progress 100 and a null notion_page_id in its result. -/
theorem c6_failure_isolation (env : WorkflowEnv) :
    ((run_research_workflow env).status = "failed" ↔
      env.researchPlanState ≠ PlanRunState.COMPLETE) ∧
    (env.researchPlanState ≠ PlanRunState.COMPLETE →
      (run_research_workflow env).error = some "Feature research failed") ∧
    (env.researchPlanState = PlanRunState.COMPLETE → env.notionConfigured = true →
      env.notionPlanState = PlanRunState.FAILED →
      env.linearPlanState = PlanRunState.COMPLETE →
      (run_research_workflow env).status = "completed" ∧
      (run_research_workflow env).progress = 100 ∧
      (run_research_workflow env).result = some
        { feature_name := env.researchValue.feature_name
          analysis := env.researchValue
          notion_page_id := none
          linear_issue_id := some env.linearIssueId }) := by
  by_cases hr : env.researchPlanState = PlanRunState.COMPLETE
  · refine ⟨?_, fun hcontra => absurd hr hcontra, fun _ hc hn hl => ?_⟩
    · simp [run_research_workflow, research_feature, hr]
    · simp [run_research_workflow, research_feature, create_prd_in_notion,
        create_linear_issue, hr, hc, hn, hl]
  · refine ⟨?_, fun _ => ?_, fun hcontra => absurd hcontra hr⟩
    · simp [run_research_workflow, research_feature, hr]
    · simp [run_research_workflow, research_feature, hr]

/-- C6, witness: in envDemo the research and Linear plans complete while the
Notion plan fails, and the session completes at progress 100 with a null
notion_page_id. -/
theorem c6_failure_isolation_witness :
    envDemo.researchPlanState = PlanRunState.COMPLETE ∧
    envDemo.notionConfigured = true ∧
    envDemo.notionPlanState = PlanRunState.FAILED ∧
    envDemo.linearPlanState = PlanRunState.COMPLETE ∧
    ((run_research_workflow envDemo).status = "completed" ∧
      (run_research_workflow envDemo).progress = 100 ∧
      (run_research_workflow envDemo).result = some
        { feature_name := envDemo.researchValue.feature_name
          analysis := envDemo.researchValue
          notion_page_id := none
          linear_issue_id := some envDemo.linearIssueId }) :=
  ⟨rfl, rfl, rfl, rfl, (c6_failure_isolation envDemo).2.2 rfl rfl rfl rfl⟩

/-- C7, counterexample: the ClarificationHandler-class action handler, after
its blocking acknowledgement, calls on_resolution with the string value
"completed" — a value is returned as the resolution, refuting the universal
claim that resolving an Action clarification returns no value. -/
theorem c7_handler_action_resolves_with_value :
    handle_action_clarification ["ready"] =
      some (HandlerOutcome.resolution (ResolutionValue.str "completed")) := rfl

/-- C7, amended: in the inline handle_clarifications loop an Action
clarification blocks for one external ready acknowledgement and then signals
readiness through wait_for_ready without resolving the clarification with
any value, while the ClarificationHandler-class variant blocks and then
resolves the clarification with the string value "completed". -/
theorem c7_action_wait_paths (ex : Executor) (pr : PlanRun) (g : String)
    (url : Option String) (ack : String) (rest : List String) :
    handle_one_clarification ex (Clarification.action g url) pr (ack :: rest) =
      some (ex.wait_for_ready pr, rest, [Event.waited (Clarification.action g url)]) ∧
    handle_action_clarification (ack :: rest) =
      some (HandlerOutcome.resolution (ResolutionValue.str "completed")) :=
  ⟨rfl, rfl⟩

/-- C8: a clarification of an unrecognized kind is handled by the fallback
else branch, which collects one free-text console answer and resolves the
clarification with it, exactly the Input strategy, instead of aborting the
loop. -/
theorem c8_unknown_kind_falls_back_to_input
    (ex : Executor) (pr : PlanRun) (g : String) (a : String) (rest : List String) :
    handle_one_clarification ex (Clarification.unknown g) pr (a :: rest) =
      some (ex.resolve_clarification (Clarification.unknown g) (ResolutionValue.str a) pr,
        rest, [Event.resolved (Clarification.unknown g) (ResolutionValue.str a)]) := rfl

/-- C9: when PORTIA_API_KEY is absent from the environment, the module-level
startup check shared by all three program variants prints its explanatory
message and exits the process with status 1, a nonzero status, before any
further work. -/
theorem c9_missing_api_key_exits :
    startup_check none =
      Except.error ("❌ Error: PORTIA_API_KEY environment variable is required", 1) ∧
    (1 : Nat) ≠ 0 := ⟨rfl, by decide⟩

/-- C10: a successful POST /research responds with the constant status
"started" and progress 0 while the session entry it just created is stored
with status "initializing", so an immediate GET /research of the same id
finds the entry (no 404) but reports a status different from the one the
POST returned. -/
theorem c10_post_research_status_mismatch
    (sessions : List (String × Session)) (session_id : String) :
    (start_research sessions session_id).2.status = "started" ∧
    (start_research sessions session_id).2.progress = 0 ∧
    sessionsGet (start_research sessions session_id).1 session_id =
      some { status := "initializing", progress := 0, result := none, error := none } ∧
    get_research_status (start_research sessions session_id).1 session_id =
      Except.ok
        { session_id := session_id
          status := "initializing"
          progress := 0
          result := none
          error := none } ∧
    ("initializing" : String) ≠ "started" := by
  refine ⟨rfl, rfl, ?_, ?_, by decide⟩
  · simp [start_research, sessionsSet, sessionsGet]
  · simp [get_research_status, start_research, sessionsSet, sessionsGet]
